import Mathlib

/-!
Verification development for the layer-manifest loading core of
val-verde/lunarg-vulkan-tools (vkconfig).

The C++ sources are shallowly embedded:
 - the comma-delimited string helpers `RemoveString` / `AppendString`
   (src/unnamed/part_000, both copies, lines 34-57 and 328-351);
 - `Layer::IsValid` and the newer `Layer::Load`
   (src/unnamed/part_000, lines 368-541), including the one-level
   fallback load of a bundled reference manifest;
 - the per-setting parsing loop of the older `Layer::Load`
   (src/unnamed/part_000, lines 161-233);
 - `FindSetting` of src/vkconfig_core/layer_preset.cpp.

Qt collaborators are modelled at the source's observable granularity:
QString is Lean `String` (with list-of-char helpers mirroring
QString::contains / split / join / startsWith), the JSON object model is
a small `Json` inductive, and the file system is a function from paths
to parse outcomes.  C assertions are modelled as aborting the load:
a run that trips an assertion yields `none` instead of a result.
-/

/-- Model of QString::contains(needle): true iff the needle occurs as a
contiguous substring of the haystack (an empty needle is always found). -/
def containsSub (v : List Char) : List Char → Bool
  | [] => v.isEmpty
  | c :: rest => v.isPrefixOf (c :: rest) || containsSub v rest

/-- Model of QString::split(","), accumulator form: splits at every
separator character; an empty input yields one empty piece, like Qt. -/
def splitCharAux (sep : Char) (acc : List Char) : List Char → List (List Char)
  | [] => [acc]
  | c :: rest =>
    if c = sep then acc :: splitCharAux sep [] rest
    else splitCharAux sep (acc ++ [c]) rest

/-- QString::split(",") on the character list of a string. -/
def splitComma (l : List Char) : List (List Char) := splitCharAux ',' [] l

/-- QStringList::join(","). -/
def joinComma (l : List (List Char)) : List Char := List.intercalate [','] l

/-- The loop of RemoveString (src/unnamed/part_000 lines 38-43): remove the
first element equal to the value, then stop (the C++ loop breaks). -/
def removeFirstAux (v : List Char) : List (List Char) → List (List Char)
  | [] => []
  | x :: rest => if x = v then rest else x :: removeFirstAux v rest

/-- RemoveString (src/unnamed/part_000 lines 328-340): if the value is not
found as a substring return the string unchanged, otherwise split on commas,
remove the first element equal to the value, and re-join. -/
def RemoveString (delimitedString default_value : String) : String :=
  if containsSub default_value.data delimitedString.data then
    String.mk (joinComma (removeFirstAux default_value.data (splitComma delimitedString.data)))
  else delimitedString

/-- AppendString (src/unnamed/part_000 lines 343-351): if the value already
occurs as a substring do nothing; otherwise append it, preceded by a comma
when the string is non-empty. -/
def AppendString (delimitedString default_value : String) : String :=
  if containsSub default_value.data delimitedString.data then delimitedString
  else (if delimitedString = "" then delimitedString else delimitedString ++ ",") ++ default_value

/-- QString::split(",") at the String level, used to state element membership
in a comma-delimited string. -/
def qsplit (s : String) : List String := (splitComma s.data).map String.mk

/-- Model of QString::startsWith. -/
def strStartsWith (s p : String) : Bool := p.data.isPrefixOf s.data

/-- Modelled from the spec: the three-part `Version` token of version.h
(missing from src/); a null sentinel distinct from any real triple. -/
inductive Version where
  | null
  | mk (major minor patch : Nat)
deriving DecidableEq, Repr

/-- Digit-string parser for one dotted component (QString-based parsing in
version.h, missing from src/): `none` when empty or not all digits. -/
def parseNatDigits (cs : List Char) : Option Nat :=
  if cs = [] then none
  else if cs.all Char.isDigit then
    some (cs.foldl (fun a c => a * 10 + (c.toNat - 48)) 0)
  else none

/-- Modelled from the spec: `Version::Version(QString)` — split on `.`,
parse up to three numeric components (missing components default to 0);
non-numeric or empty input yields the null sentinel. -/
def parseVersion (s : String) : Version :=
  if s = "" then .null
  else
    match (splitCharAux '.' [] s.data).mapM parseNatDigits with
    | none => .null
    | some ns => .mk (ns.getD 0 0) (ns.getD 1 0) (ns.getD 2 0)

/-- Modelled from the spec: lexicographic order on version triples, the null
sentinel ordered below every real version. -/
def Version.le : Version → Version → Bool
  | .null, _ => true
  | .mk _ _ _, .null => false
  | .mk a b c, .mk d e f =>
    decide (a < d) || (decide (a = d) && (decide (b < e) || (decide (b = e) && decide (c ≤ f))))

/-- Minimal JSON object model standing in for QJsonValue / QJsonObject /
QJsonArray; objects are ordered key-value lists. -/
inductive Json where
  | str (s : String)
  | num (n : Int)
  | arr (elems : List Json)
  | obj (fields : List (String × Json))

/-- QJsonObject::value(key): the first binding of the key, `none` standing
for QJsonValue::Undefined. -/
def jget (fields : List (String × Json)) (key : String) : Option Json :=
  match fields with
  | [] => none
  | kv :: rest => if kv.1 = key then some kv.2 else jget rest key

/-- QJsonValue::toString(): the string payload, or the null string for any
non-string value. -/
def Json.toString : Json → String
  | .str s => s
  | _ => ""

/-- QJsonValue::toObject(): the field list, or an empty object. -/
def Json.toObject : Json → List (String × Json)
  | .obj fields => fields
  | _ => []

/-- Modelled from the spec: the caller-declared layer kind of layer.h
(missing from src/). -/
inductive LayerType where
  | LAYER_TYPE_EXPLICIT
  | LAYER_TYPE_IMPLICIT
  | LAYER_TYPE_CUSTOM
deriving DecidableEq, Repr

/-- Modelled from the spec: the closed setting-type enumeration of layer.h
(missing from src/). -/
inductive SettingType where
  | SETTING_STRING
  | SETTING_SAVE_FILE
  | SETTING_LOAD_FILE
  | SETTING_SAVE_FOLDER
  | SETTING_BOOL
  | SETTING_BOOL_NUMERIC
  | SETTING_EXCLUSIVE_LIST
  | SETTING_INCLUSIVE_LIST
  | SETTING_VUID_FILTER
deriving DecidableEq, Repr

/-- Modelled from the spec: `GetSettingType` of util.h (missing from src/) —
exact-match mapping over the closed set of type tokens; an unknown token is
a schema violation (the source asserts), modelled as `none`. -/
def GetSettingType (token : String) : Option SettingType :=
  if token = "string" then some .SETTING_STRING
  else if token = "save_file" then some .SETTING_SAVE_FILE
  else if token = "load_file" then some .SETTING_LOAD_FILE
  else if token = "save_folder" then some .SETTING_SAVE_FOLDER
  else if token = "bool" then some .SETTING_BOOL
  else if token = "bool_numeric" then some .SETTING_BOOL_NUMERIC
  else if token = "enum" then some .SETTING_EXCLUSIVE_LIST
  else if token = "multi_enum" then some .SETTING_INCLUSIVE_LIST
  else if token = "vuid_exclude" then some .SETTING_VUID_FILTER
  else none

/-- Modelled from the spec: the maturity classifier of platform.h (missing
from src/). -/
inductive StatusType where
  | STATUS_STABLE
  | STATUS_BETA
  | STATUS_ALPHA
deriving DecidableEq, Repr

/-- Modelled from the spec: `GetStatusType` (missing from src/) — decodes a
status token; unknown input is a schema violation, modelled as `none`. -/
def GetStatusType (token : String) : Option StatusType :=
  if token = "STABLE" then some .STATUS_STABLE
  else if token = "BETA" then some .STATUS_BETA
  else if token = "ALPHA" then some .STATUS_ALPHA
  else none

/-- Modelled from the spec: `GetPlatformFlags` (missing from src/) — folds an
array of platform-name strings into a bitset. -/
def GetPlatformFlags (platforms : List String) : Nat :=
  platforms.foldl
    (fun acc p =>
      if p = "WINDOWS" then acc ||| 1
      else if p = "LINUX" then acc ||| 2
      else if p = "MACOS" then acc ||| 4
      else acc) 0

/-- LayerSetting of layer.h (missing from src/), with the fields the loading
code populates; default field values model the default constructor. -/
structure LayerSetting where
  key : String := ""
  label : String := ""
  description : String := ""
  type : SettingType := .SETTING_STRING
  default_value : String := ""
  enum_values : List String := []
  enum_labels : List String := []
deriving DecidableEq, Repr

/-- SettingStorage (key/value pair stored in a preset by the newer Load). -/
structure SettingStorage where
  key : String := ""
  value : String := ""
deriving DecidableEq, Repr

/-- LayerPreset as used by the newer `Layer::Load`
(src/unnamed/part_000 lines 511-534). -/
structure LayerPreset where
  preset_index : Int := 0
  label : String := ""
  description : String := ""
  platform_flags : Nat := 0
  status_type : StatusType := .STATUS_STABLE
  editor_state : String := ""
  settings : List SettingStorage := []
deriving DecidableEq, Repr

/-- The Layer descriptor (layer.h, missing from src/), with exactly the
fields the embedded member functions read and write; field defaults model
the default constructor `Layer::Layer()`. -/
structure Layer where
  name : String := ""
  _layer_type : LayerType := .LAYER_TYPE_EXPLICIT
  _file_format_version : Version := .null
  _api_version : Version := .null
  _implementation_version : String := ""
  _library_path : String := ""
  _type : String := ""
  _description : String := ""
  _layer_path : String := ""
  settings : List LayerSetting := []
  presets : List LayerPreset := []
deriving DecidableEq, Repr

/-- A default-constructed `Layer` (`Layer default_layer;`). -/
def defaultLayer : Layer := {}

/-- Layer::IsValid (src/unnamed/part_000 lines 368-371). -/
def Layer.IsValid (l : Layer) : Bool :=
  decide (l._file_format_version ≠ Version.null) && decide (l.name ≠ "") &&
  decide (l._type ≠ "") && decide (l._library_path ≠ "") &&
  decide (l._api_version ≠ Version.null) && decide (l._implementation_version ≠ "")

/-- LayerID (src/unnamed/part_000 lines 271-284). -/
inductive LayerID where
  | LAYER_THIRD_PARTY
  | LAYER_KHRONOS_VALIDATION
  | LAYER_LUNARG_API_DUMP
  | LAYER_LUNARG_DEVICE_SIMULATION
  | LAYER_LUNARG_GFXRECONSTRUCT
  | LAYER_LUNARG_MONITOR
  | LAYER_LUNARG_SCREENSHOT
deriving DecidableEq, Repr

/-- The fixed well-known-layer table `default_layers`
(src/unnamed/part_000 lines 292-298): id, name, bundled file name. -/
def default_layers : List (LayerID × String × String) :=
  [(.LAYER_KHRONOS_VALIDATION, "VK_LAYER_KHRONOS_validation", "VkLayer_khronos_validation.json"),
   (.LAYER_LUNARG_API_DUMP, "VK_LAYER_LUNARG_api_dump", "VkLayer_api_dump.json"),
   (.LAYER_LUNARG_DEVICE_SIMULATION, "VK_LAYER_LUNARG_device_simulation", "VkLayer_device_simulation.json"),
   (.LAYER_LUNARG_GFXRECONSTRUCT, "VK_LAYER_LUNARG_gfxreconstruct", "VkLayer_gfxreconstruct.json"),
   (.LAYER_LUNARG_MONITOR, "VK_LAYER_LUNARG_monitor", "VkLayer_monitor.json"),
   (.LAYER_LUNARG_SCREENSHOT, "VK_LAYER_LUNARG_screenshot", "VkLayer_screenshot.json")]

/-- GetLayerID (src/unnamed/part_000 lines 301-309): table scan by name,
third-party for unknown names. -/
def GetLayerID (name : String) : LayerID :=
  match default_layers.find? (fun e => e.2.1 = name) with
  | some e => e.1
  | none => .LAYER_THIRD_PARTY

/-- The bundled file name `default_layers[layer_id].file`; the table is
indexed by id so lookup by id equals array indexing.  Never consulted for
the third-party id (the caller guards on it). -/
def defaultLayerFile (id : LayerID) : String :=
  match default_layers.find? (fun e => e.1 = id) with
  | some e => e.2.2
  | none => ""

/-- GetBuiltinFolder (src/unnamed/part_000 lines 312-325): both branches of
the version comparison currently yield the same generation folder. -/
def GetBuiltinFolder (version : Version) : String :=
  if Version.le version (.mk 1 2 154) then "layers_1_2_154/" else "layers_1_2_154/"

/-- Modelled from the spec: json.h's ReadStringValue (missing from src/) —
required string field; fails when the field is absent or not a string. -/
def ReadStringValue (o : List (String × Json)) (key : String) : Option String :=
  match jget o key with
  | some (.str s) => some s
  | _ => none

/-- Modelled from the spec: json.h's ReadObject (missing from src/) —
required object field. -/
def ReadObject (o : List (String × Json)) (key : String) : Option (List (String × Json)) :=
  match jget o key with
  | some (.obj fields) => some fields
  | _ => none

/-- Modelled from the spec: json.h's ReadIntValue (missing from src/) —
required integer field. -/
def ReadIntValue (o : List (String × Json)) (key : String) : Option Int :=
  match jget o key with
  | some (.num n) => some n
  | _ => none

/-- Modelled from the spec: json.h's ReadArray (missing from src/) —
required array field. -/
def ReadArray (o : List (String × Json)) (key : String) : Option (List Json) :=
  match jget o key with
  | some (.arr elems) => some elems
  | _ => none

/-- Modelled from the spec: json.h's ReadStringArray (missing from src/) —
required array field whose elements are read with QJsonValue::toString. -/
def ReadStringArray (o : List (String × Json)) (key : String) : Option (List String) :=
  match jget o key with
  | some (.arr elems) => some (elems.map Json.toString)
  | _ => none

/-- The inline array flattening of the older Load
(src/unnamed/part_000 lines 221-230): concatenate element strings,
inserting a comma after every element but the last. -/
def joinDefaults : List Json → String
  | [] => ""
  | [x] => x.toString
  | x :: xs => x.toString ++ "," ++ joinDefaults xs

/-- Modelled from the spec: json.h's ReadString (missing from src/) — reads
a required field as a single string when scalar, or as the comma-join of its
elements in order when an array. -/
def ReadString (o : List (String × Json)) (key : String) : Option String :=
  match jget o key with
  | none => none
  | some (.arr elems) => some (joinDefaults elems)
  | some v => some v.toString

/-- One iteration of the settings loop of the newer Load
(src/unnamed/part_000 lines 450-500).  `vp` and `rp` are the path-utility
collaborators ValidatePath and ReplacePathBuiltInVariables (path.h, outside
the parsing core); `none` models a tripped assertion. -/
def parseSetting (vp rp : String → String) (json_value : Json) : Option LayerSetting :=
  let json_setting := json_value.toObject
  match ReadStringValue json_setting "key" with
  | none => none
  | some key =>
  match ReadStringValue json_setting "label" with
  | none => none
  | some label =>
  match ReadStringValue json_setting "description" with
  | none => none
  | some description =>
  match ReadStringValue json_setting "type" with
  | none => none
  | some type_token =>
  match GetSettingType type_token with
  | none => none
  | some ty =>
  match ReadString json_setting "default" with
  | none => none
  | some default_value =>
  match ty with
  | .SETTING_EXCLUSIVE_LIST | .SETTING_INCLUSIVE_LIST =>
    match jget json_setting "options" with
    | none => none
    | some options =>
      let fields := options.toObject
      some { key := key, label := label, description := description, type := ty,
             default_value := default_value,
             enum_values := fields.map (fun kv => kv.1),
             enum_labels := fields.map (fun kv => kv.2.toString) }
  | .SETTING_SAVE_FILE =>
    some { key := key, label := label, description := description, type := ty,
           default_value := rp (vp default_value) }
  | _ =>
    some { key := key, label := label, description := description, type := ty,
           default_value := default_value }

/-- One iteration of the settings loop of the older Load
(src/unnamed/part_000 lines 161-233).  Field presence is assertion-checked
and read with QJsonValue::toString; the label comes from the "name" field;
the save-file post-processing runs before the "default" field is read.
The "default" read then overwrites default_value when the value is a
scalar (an absent "default" reads as the null string), but the array
branch appends the flattened join onto the existing default_value with
`+=` (line 225). -/
def parseSettingOld (vp rp : String → String) (json_value : Json) : Option LayerSetting :=
  let json_setting := json_value.toObject
  match jget json_setting "key" with
  | none => none
  | some key_value =>
  match jget json_setting "name" with
  | none => none
  | some name_value =>
  match jget json_setting "description" with
  | none => none
  | some description_value =>
  match jget json_setting "type" with
  | none => none
  | some type_value =>
  match GetSettingType type_value.toString with
  | none => none
  | some ty =>
  let base : LayerSetting :=
    { key := key_value.toString, label := name_value.toString,
      description := description_value.toString, type := ty }
  let after_switch : Option LayerSetting :=
    match ty with
    | .SETTING_EXCLUSIVE_LIST | .SETTING_INCLUSIVE_LIST =>
      match jget json_setting "options" with
      | none => none
      | some options =>
        let fields := options.toObject
        some { base with enum_values := fields.map (fun kv => kv.1),
                         enum_labels := fields.map (fun kv => kv.2.toString) }
    | .SETTING_SAVE_FILE =>
      some { base with default_value := rp (vp base.default_value) }
    | _ => some base
  match after_switch with
  | none => none
  | some setting =>
  match jget json_setting "default" with
  | some (.arr elems) =>
    some { setting with default_value := setting.default_value ++ joinDefaults elems }
  | some v => some { setting with default_value := v.toString }
  | none => some { setting with default_value := "" }

/-- One iteration of the inner settings loop of a preset
(src/unnamed/part_000 lines 524-532): a key/value pair. -/
def parsePresetSettingValue (json_value : Json) : Option SettingStorage :=
  let json_setting_object := json_value.toObject
  match ReadStringValue json_setting_object "key" with
  | none => none
  | some k =>
  match ReadString json_setting_object "value" with
  | none => none
  | some v => some { key := k, value := v }

/-- One iteration of the presets loop of the newer Load
(src/unnamed/part_000 lines 511-534). -/
def parsePreset (json_value : Json) : Option LayerPreset :=
  let json_preset_object := json_value.toObject
  match ReadIntValue json_preset_object "preset-index" with
  | none => none
  | some preset_index =>
  match ReadStringValue json_preset_object "label" with
  | none => none
  | some label =>
  match ReadStringValue json_preset_object "description" with
  | none => none
  | some description =>
  match ReadStringArray json_preset_object "platforms" with
  | none => none
  | some platforms =>
  match ReadStringValue json_preset_object "status" with
  | none => none
  | some status_token =>
  match GetStatusType status_token with
  | none => none
  | some status_type =>
  match ReadStringValue json_preset_object "editor_state" with
  | none => none
  | some editor_state =>
  match ReadArray json_preset_object "settings" with
  | none => none
  | some json_setting_array =>
  match json_setting_array.mapM parsePresetSettingValue with
  | none => none
  | some settings =>
    some { preset_index := preset_index, label := label, description := description,
           platform_flags := GetPlatformFlags platforms, status_type := status_type,
           editor_state := editor_state, settings := settings }

/-- Outcome of opening and parsing one manifest file: the injected
byte-provider plus QJsonDocument::fromJson, at the granularity the loading
code observes (unopenable files are `none` in the environment itself). -/
inductive FileContent where
  | parseError
  | emptyDocument
  | document (root : List (String × Json))

/-- Result of the structural prologue of the newer Load
(src/unnamed/part_000 lines 374-430): either an early result (a `false`
return or a tripped assertion, with the document-parse count), or the
descriptor state plus the layer object, ready for the fallback step. -/
inductive PrologueOut where
  | early (r : Option (Bool × Layer) × Nat)
  | ok (self : Layer) (json_layer_object : List (String × Json))

/-- The structural prologue of the newer Load (src/unnamed/part_000 lines
374-430): set the layer type, reject an empty path, open and parse the
file, record the layer path, then read the required identity fields.  The
library_path check mirrors the assertion on lines 424-425: the field must
be present exactly when the name is not the override meta-layer. -/
def readPrologue (env : String → Option FileContent)
    (full_path_to_file : String) (layer_type : LayerType) (l : Layer) : PrologueOut :=
  let self := { l with _layer_type := layer_type }
  if full_path_to_file = "" then .early (some (false, self), 0)
  else
    match env full_path_to_file with
    | none => .early (some (false, self), 0)
    | some content =>
      let self := { self with _layer_path := full_path_to_file }
      match content with
      | .parseError => .early (some (false, self), 1)
      | .emptyDocument => .early (some (false, self), 1)
      | .document json_root_object =>
        match ReadStringValue json_root_object "file_format_version" with
        | none => .early (none, 1)
        | some ffv =>
          let self := { self with _file_format_version := parseVersion ffv }
          match ReadObject json_root_object "layer" with
          | none => .early (none, 1)
          | some json_layer_object =>
            match ReadStringValue json_layer_object "name",
                  ReadStringValue json_layer_object "type" with
            | some nm, some ty =>
              let self := { self with name := nm, _type := ty }
              let lpv := jget json_layer_object "library_path"
              if (lpv.isSome ∧ nm ≠ "VK_LAYER_LUNARG_override") ∨
                 (lpv.isNone ∧ nm = "VK_LAYER_LUNARG_override") then
                let self := { self with
                  _library_path := match lpv with | some v => v.toString | none => "" }
                match ReadStringValue json_layer_object "api_version",
                      ReadStringValue json_layer_object "implementation_version",
                      ReadStringValue json_layer_object "description" with
                | some av, some iv, some ds =>
                  .ok { self with _api_version := parseVersion av,
                                  _implementation_version := iv,
                                  _description := ds } json_layer_object
                | _, _, _ => .early (none, 1)
              else .early (none, 1)
            | _, _ => .early (none, 1)

/-- The settings half of the tail of the newer Load (src/unnamed/part_000
lines 446-504): parse the "settings" array when present (a non-array trips
the assertion) and append the parsed entries onto the layer's existing
settings vector — the loop push_backs onto the member (line 500) — or,
when the field is absent, assign the default layer's settings verbatim. -/
def loadSettingsPart (vp rp : String → String) (json_layer_object : List (String × Json))
    (default_layer self : Layer) : Option (List LayerSetting) :=
  match jget json_layer_object "settings" with
  | some (.arr json_array) =>
    match json_array.mapM (parseSetting vp rp) with
    | none => none
    | some parsed => some (self.settings ++ parsed)
  | some _ => none
  | none => some default_layer.settings

/-- The presets half of the tail of the newer Load (src/unnamed/part_000
lines 507-538): parse the "presets" array when present (a non-array trips
the assertion) and append the parsed entries onto the layer's existing
presets vector — the loop push_backs onto the member (line 534) — or,
when the field is absent, assign the default layer's presets verbatim. -/
def loadPresetsPart (json_layer_object : List (String × Json))
    (default_layer self : Layer) : Option (List LayerPreset) :=
  match jget json_layer_object "presets" with
  | some (.arr json_preset_array) =>
    match json_preset_array.mapM parsePreset with
    | none => none
    | some parsed => some (self.presets ++ parsed)
  | some _ => none
  | none => some default_layer.presets

/-- The tail of the newer Load (src/unnamed/part_000 lines 446-541):
resolve settings and presets, then return IsValid together with the
populated descriptor; `cnt` is the number of documents parsed so far. -/
def finishLoad (vp rp : String → String) (json_layer_object : List (String × Json))
    (default_layer self : Layer) (cnt : Nat) : Option (Bool × Layer) × Nat :=
  match loadSettingsPart vp rp json_layer_object default_layer self with
  | none => (none, cnt)
  | some ss =>
    match loadPresetsPart json_layer_object default_layer self with
    | none => (none, cnt)
    | some ps =>
      let self := { self with settings := ss, presets := ps }
      (some (self.IsValid, self), cnt)

/-- The body of the newer Layer::Load (src/unnamed/part_000 lines 374-541),
parameterized by the recursive fallback loader `fallback`: after the
structural prologue, decide whether a bundled reference manifest must be
loaded (well-known name, settings or presets absent, current file not
itself bundled; lines 432-443), run it through `fallback` — asserting its
result — and hand both descriptors to the tail. -/
def loadBody (env : String → Option FileContent) (vp rp : String → String)
    (fallback : String → LayerType → Option (Bool × Layer) × Nat)
    (full_path_to_file : String) (layer_type : LayerType) (l : Layer) :
    Option (Bool × Layer) × Nat :=
  match readPrologue env full_path_to_file layer_type l with
  | .early r => r
  | .ok self json_layer_object =>
    let layer_id := GetLayerID self.name
    if layer_id ≠ LayerID.LAYER_THIRD_PARTY ∧
       ((jget json_layer_object "settings").isNone ∨
        (jget json_layer_object "presets").isNone) ∧
       strStartsWith full_path_to_file ":/resourcefiles/" = false then
      match fallback (":/resourcefiles/" ++ GetBuiltinFolder self._api_version ++
                      defaultLayerFile layer_id) self._layer_type with
      | (some (true, default_layer), cnt) =>
        finishLoad vp rp json_layer_object default_layer self (1 + cnt)
      | (some (false, _), cnt) => (none, 1 + cnt)
      | (none, cnt) => (none, 1 + cnt)
    else
      finishLoad vp rp json_layer_object defaultLayer self 1

/-- The newer Layer::Load with an explicit recursion budget: at a positive
budget the fallback recursively invokes Load itself (on a fresh
default-constructed layer, as the source does); an exhausted budget at a
needed fallback is a stuck marker, shown unreachable from budget 1 up. -/
def loadFuel (env : String → Option FileContent) (vp rp : String → String) :
    Nat → String → LayerType → Layer → Option (Bool × Layer) × Nat
  | 0, p, t, l => loadBody env vp rp (fun _ _ => (none, 0)) p t l
  | fuel + 1, p, t, l =>
    loadBody env vp rp (fun p2 t2 => loadFuel env vp rp fuel p2 t2 defaultLayer) p t l

namespace PresetHeader

/-- LayerPresetValue of src/vkconfig_core/layer_preset.h. -/
structure LayerPresetValue where
  key : String := ""
  value : String := ""
deriving DecidableEq, Repr

/-- LayerPreset of src/vkconfig_core/layer_preset.h (the vkconfig_core
variant, whose value sequence is named setting_values). -/
structure LayerPreset where
  preset_index : Int := 0
  label : String := ""
  description : String := ""
  platform_flags : Nat := 0
  status_type : StatusType := .STATUS_STABLE
  editor_state : String := ""
  setting_values : List LayerPresetValue := []
deriving DecidableEq, Repr

/-- The scan loop of FindSetting (src/vkconfig_core/layer_preset.cpp lines
24-28): walk the sequence front to back and return on the first key match. -/
def findSettingLoop (key : String) : List LayerPresetValue → Option LayerPresetValue
  | [] => none
  | sv :: rest => if sv.key = key then some sv else findSettingLoop key rest

/-- FindSetting (src/vkconfig_core/layer_preset.cpp lines 23-31). -/
def FindSetting (preset : LayerPreset) (key : String) : Option LayerPresetValue :=
  findSettingLoop key preset.setting_values

end PresetHeader

/-- The layer object of the input document schema (spec section 6), with
the two optional fields as options: name, type, an optional library_path,
api_version, implementation_version, description, and optional settings
and presets values. -/
def layerObjFields (nm ty : String) (lp? : Option String) (av iv ds : String)
    (settings? presets? : Option Json) : List (String × Json) :=
  [("name", Json.str nm), ("type", Json.str ty)]
  ++ (match lp? with | some lp => [("library_path", Json.str lp)] | none => [])
  ++ [("api_version", Json.str av), ("implementation_version", Json.str iv),
      ("description", Json.str ds)]
  ++ (match settings? with | some v => [("settings", v)] | none => [])
  ++ (match presets? with | some v => [("presets", v)] | none => [])

/-- The root object of the input document schema (spec section 6): the
file_format_version string plus the nested layer object. -/
def rootDoc (ffv : String) (layer_fields : List (String × Json)) : List (String × Json) :=
  [("file_format_version", Json.str ffv), ("layer", Json.obj layer_fields)]

theorem containsSub_eq_true_iff (v : List Char) :
    ∀ s : List Char, containsSub v s = true ↔ v <:+: s := by
  intro s
  induction s with
  | nil =>
    simp only [containsSub, List.isEmpty_iff]
    constructor
    · intro h; simp [h]
    · intro h; exact List.eq_nil_of_infix_nil h
  | cons c rest ih =>
    simp only [containsSub, Bool.or_eq_true, List.infix_cons_iff]
    constructor
    · rintro (h | h)
      · exact Or.inl (List.isPrefixOf_iff_prefix.mp h)
      · exact Or.inr (ih.mp h)
    · rintro (h | h)
      · exact Or.inl (List.isPrefixOf_iff_prefix.mpr h)
      · exact Or.inr (ih.mpr h)

theorem mem_splitCharAux_infix (sep : Char) :
    ∀ (l acc x : List Char), x ∈ splitCharAux sep acc l → x <:+: acc ++ l := by
  intro l
  induction l with
  | nil =>
    intro acc x hx
    simp only [splitCharAux, List.mem_singleton] at hx
    subst hx
    simp
  | cons c rest ih =>
    intro acc x hx
    simp only [splitCharAux] at hx
    by_cases hc : c = sep
    · rw [if_pos hc] at hx
      rcases List.mem_cons.mp hx with h | h
      · rw [h]
        exact (List.prefix_append acc (c :: rest)).isInfix
      · have h2 : x <:+: rest := by simpa using ih [] x h
        exact h2.trans ((List.suffix_cons c rest).trans (List.suffix_append acc (c :: rest))).isInfix
    · rw [if_neg hc] at hx
      have h2 := ih (acc ++ [c]) x hx
      simpa [List.append_assoc] using h2

theorem mem_qsplit_infix (s v : String) (h : v ∈ qsplit s) : v.data <:+: s.data := by
  simp only [qsplit, List.mem_map] at h
  obtain ⟨l, hl, hv⟩ := h
  have : v.data = l := by rw [← hv]
  rw [this]
  simpa using mem_splitCharAux_infix ',' s.data [] l hl

theorem append_string_empty (w : String) : AppendString "" w = w := by
  unfold AppendString
  cases hcw : containsSub w.data "".data with
  | true =>
    have h1 : w.data <:+: "".data := (containsSub_eq_true_iff w.data "".data).mp hcw
    have h2 : w.data = [] := List.eq_nil_of_infix_nil h1
    have h3 : w = "" := String.ext h2
    simp [h3]
  | false => simp [hcw, String.empty_append]

/-- C8.  On a comma-delimited string, appending a value that is already one
of the comma-separated elements leaves the string unchanged, and appending
to the empty string yields exactly the value, with no leading delimiter
(AppendString, src/unnamed/part_000 lines 343-351 and 49-57). -/
theorem append_string_idempotent_and_empty (s v w : String) (h : v ∈ qsplit s) :
    AppendString s v = s ∧ AppendString "" w = w := by
  constructor
  · have hinf := mem_qsplit_infix s v h
    have hc : containsSub v.data s.data = true := (containsSub_eq_true_iff _ _).mpr hinf
    simp [AppendString, hc]
  · exact append_string_empty w

/-- Witness for C8 at concrete inputs: "b" is an element of "a,b". -/
theorem append_string_idempotent_and_empty_witness :
    AppendString "a,b" "b" = "a,b" ∧ AppendString "" "c" = "c" :=
  append_string_idempotent_and_empty "a,b" "b" "c" (by decide)

/-- C9.  AppendString decides presence by substring containment: whenever
the value occurs as a contiguous substring of the delimited string — even
when it is not an element of its comma-split — the append is a no-op; and
RemoveString's early exit applies the same substring test, leaving the
string unchanged whenever the value is not a substring
(src/unnamed/part_000 lines 328-351). -/
theorem append_remove_substring_semantics (s v t w : String)
    (h1 : v.data <:+: s.data) (h2 : ¬ w.data <:+: t.data) :
    AppendString s v = s ∧ RemoveString t w = t := by
  constructor
  · have hc : containsSub v.data s.data = true := (containsSub_eq_true_iff _ _).mpr h1
    simp [AppendString, hc]
  · have hc : containsSub w.data t.data = false := by
      cases hcw : containsSub w.data t.data with
      | true => exact absurd ((containsSub_eq_true_iff _ _).mp hcw) h2
      | false => rfl
    simp [RemoveString, hc]

/-- Witness for C9 at concrete inputs: "a" is a substring of "alpha,beta"
but not an element of its comma-split, and the append is still a no-op;
"y" is not a substring of "x" and the removal is a no-op. -/
theorem append_remove_substring_semantics_witness :
    ("a" ∉ qsplit "alpha,beta") ∧
    AppendString "alpha,beta" "a" = "alpha,beta" ∧ RemoveString "x" "y" = "x" := by
  have happ := append_remove_substring_semantics "alpha,beta" "a" "x" "y"
    (by rw [← containsSub_eq_true_iff]; decide)
    (by rw [← containsSub_eq_true_iff]; decide)
  exact ⟨by decide, happ.1, happ.2⟩

theorem findSettingLoop_first (key : String) :
    ∀ (l : List PresetHeader.LayerPresetValue) (sv : PresetHeader.LayerPresetValue),
      PresetHeader.findSettingLoop key l = some sv →
      ∃ m, ∃ hm : m < l.length, l.get ⟨m, hm⟩ = sv ∧ sv.key = key ∧
        ∀ j (hj : j < l.length), j < m → (l.get ⟨j, hj⟩).key ≠ key := by
  intro l
  induction l with
  | nil => intro sv hsv; simp [PresetHeader.findSettingLoop] at hsv
  | cons a rest ih =>
    intro sv hsv
    simp only [PresetHeader.findSettingLoop] at hsv
    by_cases h : a.key = key
    · rw [if_pos h] at hsv
      refine ⟨0, by simp, ?_, ?_, ?_⟩
      · simpa using (Option.some.injEq a sv ▸ hsv).symm ▸ rfl
      · cases hsv; exact h
      · intro j hj hj0; omega
    · rw [if_neg h] at hsv
      obtain ⟨m, hm, hget, hkey, hmin⟩ := ih sv hsv
      refine ⟨m + 1, by simpa using Nat.succ_lt_succ hm, by simpa using hget, hkey, ?_⟩
      intro j hj hjm
      match j with
      | 0 => simpa using h
      | j2 + 1 =>
        have hj2 : j2 < rest.length := by simpa using hj
        have := hmin j2 hj2 (by omega)
        simpa using this

theorem findSettingLoop_isSome (key : String) :
    ∀ l : List PresetHeader.LayerPresetValue,
      (∃ x ∈ l, x.key = key) → (PresetHeader.findSettingLoop key l).isSome := by
  intro l
  induction l with
  | nil => rintro ⟨x, hx, _⟩; simp at hx
  | cons a rest ih =>
    rintro ⟨x, hx, hkey⟩
    simp only [PresetHeader.findSettingLoop]
    by_cases h : a.key = key
    · simp [h]
    · rw [if_neg h]
      rcases List.mem_cons.mp hx with rfl | hx2
      · exact absurd hkey h
      · exact ih ⟨x, hx2, hkey⟩

/-- A preset whose setting_values sequence holds two entries with the same
key, used to exhibit FindSetting's scan direction. -/
def presetDup : PresetHeader.LayerPreset :=
  { setting_values := [{ key := "k", value := "first" }, { key := "k", value := "second" }] }

/-- C6 counterexample.  FindSetting on a preset holding two entries with
key "k" returns the first entry in sequence order, not the last: the claim
that "a lookup by that key yields the last such entry" is false on this
concrete preset. -/
theorem find_setting_first_not_last :
    presetDup.setting_values =
      [{ key := "k", value := "first" }, { key := "k", value := "second" }] ∧
    PresetHeader.FindSetting presetDup "k" = some { key := "k", value := "first" } ∧
    PresetHeader.FindSetting presetDup "k" ≠ some { key := "k", value := "second" } := by
  decide

/-- C6 as amended.  For every preset whose setting_values sequence contains
two or more entries with the same key, FindSetting yields the FIRST entry
with that key in sequence order (no earlier entry matches), while all
duplicate entries remain stored in the sequence
(src/vkconfig_core/layer_preset.cpp lines 23-31). -/
theorem find_setting_first_wins (p : PresetHeader.LayerPreset) (k : String) (i j : Nat)
    (hi : i < p.setting_values.length) (hj : j < p.setting_values.length) (hij : i ≠ j)
    (hki : (p.setting_values.get ⟨i, hi⟩).key = k)
    (hkj : (p.setting_values.get ⟨j, hj⟩).key = k) :
    ∃ m, ∃ hm : m < p.setting_values.length,
      PresetHeader.FindSetting p k = some (p.setting_values.get ⟨m, hm⟩) ∧
      (p.setting_values.get ⟨m, hm⟩).key = k ∧
      (∀ j2 (hj2 : j2 < p.setting_values.length), j2 < m →
        (p.setting_values.get ⟨j2, hj2⟩).key ≠ k) ∧
      p.setting_values.get ⟨i, hi⟩ ∈ p.setting_values ∧
      p.setting_values.get ⟨j, hj⟩ ∈ p.setting_values := by
  have hsome : (PresetHeader.findSettingLoop k p.setting_values).isSome :=
    findSettingLoop_isSome k p.setting_values
      ⟨p.setting_values.get ⟨i, hi⟩, List.get_mem _ _ hi, hki⟩
  obtain ⟨sv, hsv⟩ := Option.isSome_iff_exists.mp hsome
  obtain ⟨m, hm, hget, hkey, hmin⟩ := findSettingLoop_first k p.setting_values sv hsv
  refine ⟨m, hm, ?_, ?_, hmin, List.get_mem _ _ hi, List.get_mem _ _ hj⟩
  · show PresetHeader.findSettingLoop k p.setting_values = _
    rw [hsv, hget]
  · rw [hget]; exact hkey

/-- Witness for C6's amended theorem at the concrete duplicate preset. -/
theorem find_setting_first_wins_witness :
    ∃ m, ∃ hm : m < presetDup.setting_values.length,
      PresetHeader.FindSetting presetDup "k" = some (presetDup.setting_values.get ⟨m, hm⟩) ∧
      (presetDup.setting_values.get ⟨m, hm⟩).key = "k" ∧
      (∀ j2 (hj2 : j2 < presetDup.setting_values.length), j2 < m →
        (presetDup.setting_values.get ⟨j2, hj2⟩).key ≠ "k") ∧
      presetDup.setting_values.get ⟨0, by decide⟩ ∈ presetDup.setting_values ∧
      presetDup.setting_values.get ⟨1, by decide⟩ ∈ presetDup.setting_values :=
  find_setting_first_wins presetDup "k" 0 1 (by decide) (by decide) (by decide)
    (by decide) (by decide)

/-- Spec-side helper for comparing with String.intercalate: the suffix a
comma-separated join appends after its first element. -/
def joinSuffix : List String → String
  | [] => ""
  | a :: as => "," ++ a ++ joinSuffix as

theorem intercalate_go_spec : ∀ (as : List String) (acc : String),
    String.intercalate.go acc "," as = acc ++ joinSuffix as := by
  intro as
  induction as with
  | nil => intro acc; simp [String.intercalate.go, joinSuffix]
  | cons a rest ih =>
    intro acc
    simp only [String.intercalate.go, joinSuffix]
    rw [ih]
    simp [String.append_assoc]

theorem joinDefaults_intercalate (l : List Json) :
    joinDefaults l = String.intercalate "," (l.map Json.toString) := by
  induction l with
  | nil => rfl
  | cons x xs ih =>
    cases xs with
    | nil => rfl
    | cons y ys =>
      have h1 : joinDefaults (x :: y :: ys) = x.toString ++ "," ++ joinDefaults (y :: ys) := rfl
      rw [h1, ih]
      simp only [List.map, String.intercalate, intercalate_go_spec, joinSuffix]
      simp [String.append_assoc]

/-- A concrete stand-in for the path-validation collaborator, used to make
the save-file pipeline observable. -/
def vpTest (s : String) : String := "/valid/" ++ s

/-- A concrete stand-in for the built-in path-variable substitution
collaborator. -/
def rpTest (s : String) : String := s ++ "/vkconfig"

/-- C7 counterexample.  In the older Load's settings loop the array-default
branch (src/unnamed/part_000 line 225) appends the flattened join onto the
default_value the type switch already stored; for a save-file setting that
prior value is the substituted-validated empty string, so the stored
default is NOT the bare comma-join: the claim fails on this concrete
save-file setting with default ["a","b"]. -/
def saveFileArrayDoc : Json := .obj [("key", .str "log_filename"), ("name", .str "Log"),
  ("description", .str "dd"), ("type", .str "save_file"),
  ("default", .arr [.str "a", .str "b"])]

/-- C7 counterexample theorem (see saveFileArrayDoc): the stored value is
the save-file prefix followed by the join, not the join itself. -/
theorem default_array_save_file_appends :
    (parseSettingOld vpTest rpTest saveFileArrayDoc).map LayerSetting.default_value =
      some (rpTest (vpTest "") ++ "a,b") ∧
    rpTest (vpTest "") ++ "a,b" ≠ "a,b" ∧
    String.intercalate "," ([Json.str "a", Json.str "b"].map Json.toString) = "a,b" := by
  decide

/-- C7 as amended.  In the older Load's settings loop (src/unnamed/part_000
lines 161-233), whenever a setting's "default" field is an array, the
comma-join of the array's element strings in source order (no trailing
delimiter) is APPENDED onto the default_value already set by the type
switch; that prior value is empty for every type except save-file, so for
every non-save-file setting the stored default_value is exactly the
comma-join, while for a save-file setting it is the substituted-validated
empty string followed by the comma-join. -/
theorem default_array_comma_join_amended (vp rp : String → String) (j : Json) (a : List Json)
    (st : LayerSetting) (hd : jget j.toObject "default" = some (.arr a))
    (hp : parseSettingOld vp rp j = some st) :
    (st.type ≠ SettingType.SETTING_SAVE_FILE →
      st.default_value = String.intercalate "," (a.map Json.toString)) ∧
    (st.type = SettingType.SETTING_SAVE_FILE →
      st.default_value = rp (vp "") ++ String.intercalate "," (a.map Json.toString)) := by
  unfold parseSettingOld at hp
  dsimp only at hp
  rcases hk : jget j.toObject "key" with _ | kv <;> rw [hk] at hp <;> dsimp only at hp
  · exact absurd hp (by simp)
  rcases hn : jget j.toObject "name" with _ | nv <;> rw [hn] at hp <;> dsimp only at hp
  · exact absurd hp (by simp)
  rcases hde : jget j.toObject "description" with _ | dv <;> rw [hde] at hp <;> dsimp only at hp
  · exact absurd hp (by simp)
  rcases ht : jget j.toObject "type" with _ | tv <;> rw [ht] at hp <;> dsimp only at hp
  · exact absurd hp (by simp)
  rcases hty : GetSettingType tv.toString with _ | ty <;> rw [hty] at hp <;> dsimp only at hp
  · exact absurd hp (by simp)
  cases ty with
  | SETTING_EXCLUSIVE_LIST =>
    rcases ho : jget j.toObject "options" with _ | opts <;> rw [ho] at hp <;> dsimp only at hp
    · exact absurd hp (by simp)
    rw [hd] at hp
    dsimp only at hp
    rw [← Option.some.inj hp]
    refine ⟨fun _ => ?_, fun hty2 => absurd hty2 (by simp)⟩
    show "" ++ joinDefaults a = _
    rw [String.empty_append, joinDefaults_intercalate]
  | SETTING_INCLUSIVE_LIST =>
    rcases ho : jget j.toObject "options" with _ | opts <;> rw [ho] at hp <;> dsimp only at hp
    · exact absurd hp (by simp)
    rw [hd] at hp
    dsimp only at hp
    rw [← Option.some.inj hp]
    refine ⟨fun _ => ?_, fun hty2 => absurd hty2 (by simp)⟩
    show "" ++ joinDefaults a = _
    rw [String.empty_append, joinDefaults_intercalate]
  | SETTING_SAVE_FILE =>
    rw [hd] at hp
    dsimp only at hp
    rw [← Option.some.inj hp]
    refine ⟨fun hne => absurd rfl hne, fun _ => ?_⟩
    show rp (vp "") ++ joinDefaults a = _
    rw [joinDefaults_intercalate]
  | SETTING_STRING =>
    rw [hd] at hp
    dsimp only at hp
    rw [← Option.some.inj hp]
    refine ⟨fun _ => ?_, fun hty2 => absurd hty2 (by simp)⟩
    show "" ++ joinDefaults a = _
    rw [String.empty_append, joinDefaults_intercalate]
  | SETTING_LOAD_FILE =>
    rw [hd] at hp
    dsimp only at hp
    rw [← Option.some.inj hp]
    refine ⟨fun _ => ?_, fun hty2 => absurd hty2 (by simp)⟩
    show "" ++ joinDefaults a = _
    rw [String.empty_append, joinDefaults_intercalate]
  | SETTING_SAVE_FOLDER =>
    rw [hd] at hp
    dsimp only at hp
    rw [← Option.some.inj hp]
    refine ⟨fun _ => ?_, fun hty2 => absurd hty2 (by simp)⟩
    show "" ++ joinDefaults a = _
    rw [String.empty_append, joinDefaults_intercalate]
  | SETTING_BOOL =>
    rw [hd] at hp
    dsimp only at hp
    rw [← Option.some.inj hp]
    refine ⟨fun _ => ?_, fun hty2 => absurd hty2 (by simp)⟩
    show "" ++ joinDefaults a = _
    rw [String.empty_append, joinDefaults_intercalate]
  | SETTING_BOOL_NUMERIC =>
    rw [hd] at hp
    dsimp only at hp
    rw [← Option.some.inj hp]
    refine ⟨fun _ => ?_, fun hty2 => absurd hty2 (by simp)⟩
    show "" ++ joinDefaults a = _
    rw [String.empty_append, joinDefaults_intercalate]
  | SETTING_VUID_FILTER =>
    rw [hd] at hp
    dsimp only at hp
    rw [← Option.some.inj hp]
    refine ⟨fun _ => ?_, fun hty2 => absurd hty2 (by simp)⟩
    show "" ++ joinDefaults a = _
    rw [String.empty_append, joinDefaults_intercalate]

/-- The concrete array-default setting document for the C7 witness. -/
def arrDefaultSetting : Json := .obj [("key", .str "k"), ("name", .str "n"),
  ("description", .str "d"), ("type", .str "string"),
  ("default", .arr [.str "a", .str "b", .str "c"])]

/-- Witness for C7's amended theorem: a non-save-file list default of
["a","b","c"] is stored as "a,b,c", and a save-file list default of
["a","b"] is stored with the substituted-validated empty prefix. -/
theorem default_array_comma_join_amended_witness :
    ({ key := "k", label := "n", description := "d", type := .SETTING_STRING,
       default_value := "a,b,c" } : LayerSetting).default_value =
      String.intercalate "," ([Json.str "a", Json.str "b", Json.str "c"].map Json.toString) ∧
    ({ key := "log_filename", label := "Log", description := "dd",
       type := .SETTING_SAVE_FILE,
       default_value := rpTest (vpTest "") ++ "a,b" } : LayerSetting).default_value =
      rpTest (vpTest "") ++
        String.intercalate "," ([Json.str "a", Json.str "b"].map Json.toString) :=
  ⟨(default_array_comma_join_amended id id arrDefaultSetting
      [Json.str "a", Json.str "b", Json.str "c"]
      { key := "k", label := "n", description := "d", type := .SETTING_STRING,
        default_value := "a,b,c" } rfl (by decide)).1 (by decide),
   (default_array_comma_join_amended vpTest rpTest saveFileArrayDoc
      [Json.str "a", Json.str "b"]
      { key := "log_filename", label := "Log", description := "dd",
        type := .SETTING_SAVE_FILE, default_value := rpTest (vpTest "") ++ "a,b" }
      rfl (by decide)).2 (by decide)⟩

/-- A save-file setting document carrying both the old ("name") and new
("label") display-text fields, so both settings loops accept it. -/
def saveFileSettingDoc : Json := .obj [("key", .str "log_filename"), ("name", .str "Log"),
  ("label", .str "Log"), ("description", .str "dd"), ("type", .str "save_file"),
  ("default", .str "manifest.json")]

/-- C5 evaluation.  In the older Load's settings loop (src/unnamed/part_000
lines 205-231) the save-file post-processing runs before the "default"
field is read, and the subsequent read overwrites it: the raw document
value reaches the descriptor unnormalized.  The newer loop
(src/unnamed/part_000 lines 459-487) reads "default" first and then
post-processes it through validation and substitution in that order, which
yields a different, normalized value on the same document. -/
theorem save_file_default_old_load_raw_eval :
    (parseSettingOld vpTest rpTest saveFileSettingDoc).map LayerSetting.default_value =
      some "manifest.json" ∧
    (parseSetting vpTest rpTest saveFileSettingDoc).map LayerSetting.default_value =
      some (rpTest (vpTest "manifest.json")) ∧
    rpTest (vpTest "manifest.json") ≠ "manifest.json" := by decide

theorem builtin_refPath (g f : String) :
    strStartsWith (":/resourcefiles/" ++ g ++ f) ":/resourcefiles/" = true := by
  unfold strStartsWith
  rw [String.data_append, String.data_append]
  exact List.isPrefixOf_iff_prefix.mpr
    (by rw [List.append_assoc]; exact List.prefix_append _ _)

theorem readPrologue_early_count (env : String → Option FileContent) (p : String)
    (t : LayerType) (l : Layer) (r : Option (Bool × Layer) × Nat)
    (h : readPrologue env p t l = .early r) : r.2 ≤ 1 := by
  unfold readPrologue at h
  dsimp only at h
  by_cases hp : p = ""
  · rw [if_pos hp] at h
    cases h
    simp
  rw [if_neg hp] at h
  cases henv : env p with
  | none =>
    rw [henv] at h
    cases h
    simp
  | some content =>
    rw [henv] at h
    cases content with
    | parseError => cases h; simp
    | emptyDocument => cases h; simp
    | document root =>
      dsimp only at h
      cases hffv : ReadStringValue root "file_format_version" with
      | none => rw [hffv] at h; cases h; simp
      | some ffv =>
rw [hffv] at h
dsimp only at h
cases hobj : ReadObject root "layer" with
| none => rw [hobj] at h; cases h; simp
| some jlo =>
  rw [hobj] at h
  dsimp only at h
  cases hnm : ReadStringValue jlo "name" with
  | none => rw [hnm] at h; dsimp only at h; cases h; simp
  | some nm =>
    rw [hnm] at h
    cases hty : ReadStringValue jlo "type" with
    | none => rw [hty] at h; dsimp only at h; cases h; simp
    | some ty =>
      rw [hty] at h
      dsimp only at h
      repeat' split at h
      all_goals first
        | (cases h; simp)
        | exact absurd h (by simp)

theorem finishLoad_count (vp rp : String → String) (jlo : List (String × Json))
    (dl self : Layer) (cnt : Nat) : (finishLoad vp rp jlo dl self cnt).2 = cnt := by
  unfold finishLoad
  cases loadSettingsPart vp rp jlo dl self with
  | none => rfl
  | some ss =>
    dsimp only
    cases loadPresetsPart jlo dl self with
    | none => rfl
    | some ps => rfl

theorem loadBody_builtin_irrel (env : String → Option FileContent) (vp rp : String → String)
    (fb fb2 : String → LayerType → Option (Bool × Layer) × Nat) (p : String)
    (t : LayerType) (l : Layer) (h : strStartsWith p ":/resourcefiles/" = true) :
    loadBody env vp rp fb p t l = loadBody env vp rp fb2 p t l := by
  unfold loadBody
  cases hpro : readPrologue env p t l with
  | early r => rfl
  | ok self jlo =>
    dsimp only
    have hcond : ¬ (GetLayerID self.name ≠ LayerID.LAYER_THIRD_PARTY ∧
        ((jget jlo "settings").isNone ∨ (jget jlo "presets").isNone) ∧
        strStartsWith p ":/resourcefiles/" = false) := by
      rintro ⟨_, _, hc⟩
      rw [h] at hc
      cases hc
    rw [if_neg hcond, if_neg hcond]

theorem loadBody_count_builtin (env : String → Option FileContent) (vp rp : String → String)
    (fb : String → LayerType → Option (Bool × Layer) × Nat) (p : String)
    (t : LayerType) (l : Layer) (h : strStartsWith p ":/resourcefiles/" = true) :
    (loadBody env vp rp fb p t l).2 ≤ 1 := by
  unfold loadBody
  cases hpro : readPrologue env p t l with
  | early r => exact readPrologue_early_count env p t l r hpro
  | ok self jlo =>
    dsimp only
    have hcond : ¬ (GetLayerID self.name ≠ LayerID.LAYER_THIRD_PARTY ∧
        ((jget jlo "settings").isNone ∨ (jget jlo "presets").isNone) ∧
        strStartsWith p ":/resourcefiles/" = false) := by
      rintro ⟨_, _, hc⟩
      rw [h] at hc
      cases hc
    rw [if_neg hcond]
    rw [finishLoad_count]

theorem loadBody_fb_congr (env : String → Option FileContent) (vp rp : String → String)
    (fb fb2 : String → LayerType → Option (Bool × Layer) × Nat) (p : String)
    (t : LayerType) (l : Layer)
    (hfb : ∀ p2 t2, strStartsWith p2 ":/resourcefiles/" = true → fb p2 t2 = fb2 p2 t2) :
    loadBody env vp rp fb p t l = loadBody env vp rp fb2 p t l := by
  unfold loadBody
  cases hpro : readPrologue env p t l with
  | early r => rfl
  | ok self jlo =>
    dsimp only
    by_cases hcond : GetLayerID self.name ≠ LayerID.LAYER_THIRD_PARTY ∧
        ((jget jlo "settings").isNone ∨ (jget jlo "presets").isNone) ∧
        strStartsWith p ":/resourcefiles/" = false
    · rw [if_pos hcond, if_pos hcond,
        hfb _ _ (builtin_refPath (GetBuiltinFolder self._api_version)
          (defaultLayerFile (GetLayerID self.name)))]
    · rw [if_neg hcond, if_neg hcond]

theorem loadBody_count_le (env : String → Option FileContent) (vp rp : String → String)
    (fb : String → LayerType → Option (Bool × Layer) × Nat) (p : String)
    (t : LayerType) (l : Layer)
    (hfb : ∀ p2 t2, strStartsWith p2 ":/resourcefiles/" = true → (fb p2 t2).2 ≤ 1) :
    (loadBody env vp rp fb p t l).2 ≤ 2 := by
  unfold loadBody
  cases hpro : readPrologue env p t l with
  | early r =>
    dsimp only
    have := readPrologue_early_count env p t l r hpro
    omega
  | ok self jlo =>
    dsimp only
    by_cases hcond : GetLayerID self.name ≠ LayerID.LAYER_THIRD_PARTY ∧
        ((jget jlo "settings").isNone ∨ (jget jlo "presets").isNone) ∧
        strStartsWith p ":/resourcefiles/" = false
    · rw [if_pos hcond]
      have hcnt := hfb (":/resourcefiles/" ++ GetBuiltinFolder self._api_version ++
          defaultLayerFile (GetLayerID self.name)) self._layer_type
        (builtin_refPath (GetBuiltinFolder self._api_version)
          (defaultLayerFile (GetLayerID self.name)))
      rcases hfbv : fb (":/resourcefiles/" ++ GetBuiltinFolder self._api_version ++
          defaultLayerFile (GetLayerID self.name)) self._layer_type with ⟨r, cnt⟩
      rw [hfbv] at hcnt
      simp only at hcnt
      match r with
      | none => simp; omega
      | some (true, dl) => rw [finishLoad_count]; omega
      | some (false, dl) => simp; omega
    · rw [if_neg hcond]
      rw [finishLoad_count]
      omega

theorem loadFuel_builtin_fb_free (env : String → Option FileContent) (vp rp : String → String) :
    ∀ (n : Nat) (p : String) (t : LayerType) (l : Layer),
      strStartsWith p ":/resourcefiles/" = true →
      loadFuel env vp rp n p t l = loadFuel env vp rp 0 p t l := by
  intro n p t l h
  cases n with
  | zero => rfl
  | succ m =>
    show loadBody env vp rp (fun p2 t2 => loadFuel env vp rp m p2 t2 defaultLayer) p t l
       = loadBody env vp rp (fun _ _ => (none, 0)) p t l
    exact loadBody_builtin_irrel env vp rp _ _ p t l h

theorem loadFuel_fuel_irrelevant (env : String → Option FileContent) (vp rp : String → String) :
    ∀ (n : Nat) (p : String) (t : LayerType) (l : Layer),
      loadFuel env vp rp (n + 1) p t l = loadFuel env vp rp 1 p t l := by
  intro n
  induction n with
  | zero => intro p t l; rfl
  | succ m ih =>
    intro p t l
    show loadBody env vp rp (fun p2 t2 => loadFuel env vp rp (m + 1) p2 t2 defaultLayer) p t l
       = loadFuel env vp rp 1 p t l
    have step : loadBody env vp rp (fun p2 t2 => loadFuel env vp rp (m + 1) p2 t2 defaultLayer) p t l
        = loadBody env vp rp (fun p2 t2 => loadFuel env vp rp 0 p2 t2 defaultLayer) p t l := by
      apply loadBody_fb_congr
      intro p2 t2 h2
      rw [ih p2 t2 defaultLayer]
      exact loadFuel_builtin_fb_free env vp rp 1 p2 t2 defaultLayer h2
    rw [step]
    rfl

theorem loadFuel_count_builtin (env : String → Option FileContent) (vp rp : String → String)
    (n : Nat) (p : String) (t : LayerType) (l : Layer)
    (h : strStartsWith p ":/resourcefiles/" = true) :
    (loadFuel env vp rp n p t l).2 ≤ 1 := by
  cases n with
  | zero => exact loadBody_count_builtin env vp rp _ p t l h
  | succ m => exact loadBody_count_builtin env vp rp _ p t l h

theorem loadFuel_count_le_two (env : String → Option FileContent) (vp rp : String → String)
    (n : Nat) (p : String) (t : LayerType) (l : Layer) :
    (loadFuel env vp rp n p t l).2 ≤ 2 := by
  cases n with
  | zero =>
    apply loadBody_count_le
    intro p2 t2 h2
    simp
  | succ m =>
    apply loadBody_count_le
    intro p2 t2 h2
    exact loadFuel_count_builtin env vp rp m p2 t2 defaultLayer h2

/-- C2.  The fallback recursion of Load has depth exactly one: a recursion
budget of one (the bundled reference manifest loaded directly, itself
never recursing) already computes the result of any larger budget, so every
call terminates, and any single call to Load parses at most two documents
(the count returned alongside the result). -/
theorem layer_load_fallback_depth_one (env : String → Option FileContent)
    (vp rp : String → String) (n : Nat) (p : String) (t : LayerType) (l : Layer) :
    loadFuel env vp rp (n + 1) p t l = loadFuel env vp rp 1 p t l ∧
    (loadFuel env vp rp (n + 1) p t l).2 ≤ 2 :=
  ⟨loadFuel_fuel_irrelevant env vp rp n p t l, loadFuel_count_le_two env vp rp (n + 1) p t l⟩

/-- C10.  When Load fails structurally — empty path, unopenable file, JSON
parse error, or empty document — it returns false, but the descriptor is
not fully unchanged: the layer-type field is always overwritten at entry,
and the stored layer path is overwritten once the file was successfully
opened, while every other descriptor field retains its prior value (the
record updates below touch nothing else). -/
theorem load_structural_failure_frame (env : String → Option FileContent)
    (vp rp : String → String) (fuel : Nat) (p : String) (t : LayerType) (l : Layer) :
    (p = "" →
      loadFuel env vp rp fuel p t l = (some (false, { l with _layer_type := t }), 0)) ∧
    (p ≠ "" → env p = none →
      loadFuel env vp rp fuel p t l = (some (false, { l with _layer_type := t }), 0)) ∧
    (p ≠ "" → env p = some .parseError →
      loadFuel env vp rp fuel p t l =
        (some (false, { l with _layer_type := t, _layer_path := p }), 1)) ∧
    (p ≠ "" → env p = some .emptyDocument →
      loadFuel env vp rp fuel p t l =
        (some (false, { l with _layer_type := t, _layer_path := p }), 1)) := by
  refine ⟨fun hp => ?_, fun hp henv => ?_, fun hp henv => ?_, fun hp henv => ?_⟩
  · cases fuel <;> simp only [loadFuel, loadBody, readPrologue] <;> simp [hp]
  · cases fuel <;> simp only [loadFuel, loadBody, readPrologue] <;> simp [hp, henv]
  · cases fuel <;> simp only [loadFuel, loadBody, readPrologue] <;> simp [hp, henv]
  · cases fuel <;> simp only [loadFuel, loadBody, readPrologue] <;> simp [hp, henv]

/-- A file environment for the frame witness: one unparsable file, one
empty document, everything else unopenable. -/
def envFrame : String → Option FileContent := fun s =>
  if s = "bad.json" then some .parseError
  else if s = "empty.json" then some .emptyDocument
  else none

/-- Witness for C10 at all four structural-failure cases. -/
theorem load_structural_failure_frame_witness :
    loadFuel envFrame id id 1 "" .LAYER_TYPE_IMPLICIT defaultLayer =
      (some (false, { defaultLayer with _layer_type := .LAYER_TYPE_IMPLICIT }), 0) ∧
    loadFuel envFrame id id 1 "missing.json" .LAYER_TYPE_IMPLICIT defaultLayer =
      (some (false, { defaultLayer with _layer_type := .LAYER_TYPE_IMPLICIT }), 0) ∧
    loadFuel envFrame id id 1 "bad.json" .LAYER_TYPE_IMPLICIT defaultLayer =
      (some (false,
        { defaultLayer with _layer_type := .LAYER_TYPE_IMPLICIT, _layer_path := "bad.json" }),
       1) ∧
    loadFuel envFrame id id 1 "empty.json" .LAYER_TYPE_IMPLICIT defaultLayer =
      (some (false,
        { defaultLayer with _layer_type := .LAYER_TYPE_IMPLICIT, _layer_path := "empty.json" }),
       1) :=
  ⟨(load_structural_failure_frame envFrame id id 1 "" _ defaultLayer).1 rfl,
   (load_structural_failure_frame envFrame id id 1 "missing.json" _ defaultLayer).2.1
     (by decide) rfl,
   (load_structural_failure_frame envFrame id id 1 "bad.json" _ defaultLayer).2.2.1
     (by decide) rfl,
   (load_structural_failure_frame envFrame id id 1 "empty.json" _ defaultLayer).2.2.2
     (by decide) rfl⟩

theorem readPrologue_document_early_none (env : String → Option FileContent) (p : String)
    (t : LayerType) (l : Layer) (root : List (String × Json)) (r : Option (Bool × Layer) × Nat)
    (h1 : p ≠ "") (h2 : env p = some (.document root))
    (h : readPrologue env p t l = .early r) : r.1 = none := by
  unfold readPrologue at h
  dsimp only at h
  rw [if_neg h1, h2] at h
  dsimp only at h
  cases hffv : ReadStringValue root "file_format_version" with
  | none => rw [hffv] at h; cases h; rfl
  | some ffv =>
    rw [hffv] at h
    dsimp only at h
    cases hobj : ReadObject root "layer" with
    | none => rw [hobj] at h; cases h; rfl
    | some jlo =>
      rw [hobj] at h
      dsimp only at h
      cases hnm : ReadStringValue jlo "name" with
      | none => rw [hnm] at h; dsimp only at h; cases h; rfl
      | some nm =>
        rw [hnm] at h
        cases hty : ReadStringValue jlo "type" with
        | none => rw [hty] at h; dsimp only at h; cases h; rfl
        | some ty =>
          rw [hty] at h
          dsimp only at h
          repeat' split at h
          all_goals first
            | (cases h; rfl)
            | exact absurd h (by simp)

theorem finishLoad_some_validity (vp rp : String → String) (jlo : List (String × Json))
    (dl self : Layer) (cnt : Nat) (b : Bool) (lf : Layer) (c : Nat)
    (h : finishLoad vp rp jlo dl self cnt = (some (b, lf), c)) : b = lf.IsValid := by
  unfold finishLoad at h
  cases hs : loadSettingsPart vp rp jlo dl self with
  | none => rw [hs] at h; exact absurd h (by simp)
  | some ss =>
    rw [hs] at h
    dsimp only at h
    cases hp2 : loadPresetsPart jlo dl self with
    | none => rw [hp2] at h; exact absurd h (by simp)
    | some ps =>
      rw [hp2] at h
      dsimp only at h
      rw [Prod.mk.injEq] at h
      obtain ⟨hsome, -⟩ := h
      obtain ⟨hb, hlf⟩ := Prod.mk.injEq .. |>.mp (Option.some.inj hsome)
      rw [← hlf, ← hb]

theorem loadBody_some_validity (env : String → Option FileContent) (vp rp : String → String)
    (fb : String → LayerType → Option (Bool × Layer) × Nat) (p : String) (t : LayerType)
    (l : Layer) (root : List (String × Json)) (b : Bool) (lf : Layer) (c : Nat)
    (h1 : p ≠ "") (h2 : env p = some (.document root))
    (h3 : loadBody env vp rp fb p t l = (some (b, lf), c)) : b = lf.IsValid := by
  unfold loadBody at h3
  cases hpro : readPrologue env p t l with
  | early r =>
    rw [hpro] at h3
    dsimp only at h3
    have hn := readPrologue_document_early_none env p t l root r h1 h2 hpro
    rcases r with ⟨r1, r2⟩
    simp only at hn
    subst hn
    exact absurd h3 (by simp)
  | ok self jlo =>
    rw [hpro] at h3
    dsimp only at h3
    by_cases hcond : GetLayerID self.name ≠ LayerID.LAYER_THIRD_PARTY ∧
        ((jget jlo "settings").isNone ∨ (jget jlo "presets").isNone) ∧
        strStartsWith p ":/resourcefiles/" = false
    · rw [if_pos hcond] at h3
      rcases hfbv : fb (":/resourcefiles/" ++ GetBuiltinFolder self._api_version ++
          defaultLayerFile (GetLayerID self.name)) self._layer_type with ⟨fr, fcnt⟩
      rw [hfbv] at h3
      rcases fr with _ | ⟨bb, dl⟩
      · exact absurd h3 (by simp)
      · cases bb with
        | true => exact finishLoad_some_validity vp rp jlo dl self (1 + fcnt) b lf c h3
        | false => exact absurd h3 (by simp)
    · rw [if_neg hcond] at h3
      exact finishLoad_some_validity vp rp jlo defaultLayer self 1 b lf c h3

/-- C3.  For every document that passes the structural checks (non-empty
path, openable, parseable, non-empty), whenever Load returns a result at
all (no assertion tripped, so every required field was readable), the
returned flag is exactly the validity invariant of the returned descriptor,
and the descriptor itself is returned alongside the flag — even when the
flag is false. -/
theorem layer_load_returns_validity (env : String → Option FileContent)
    (vp rp : String → String) (fuel : Nat) (p : String) (t : LayerType) (l : Layer)
    (root : List (String × Json)) (b : Bool) (lf : Layer) (c : Nat)
    (h1 : p ≠ "") (h2 : env p = some (.document root))
    (h3 : loadFuel env vp rp fuel p t l = (some (b, lf), c)) : b = lf.IsValid := by
  cases fuel with
  | zero => exact loadBody_some_validity env vp rp _ p t l root b lf c h1 h2 h3
  | succ m => exact loadBody_some_validity env vp rp _ p t l root b lf c h1 h2 h3

/-- The root document for the C3 witness: a third-party layer with all
required fields present and no settings or presets. -/
def rootC3 : List (String × Json) :=
  rootDoc "1.2.0"
    (layerObjFields "VK_LAYER_test" "GLOBAL" (some "test.dll") "1.2.154" "2" "dd" none none)

/-- A file environment holding only the C3 witness document. -/
def envC3 : String → Option FileContent := fun s =>
  if s = "layer.json" then some (.document rootC3) else none

/-- The descriptor the C3 witness run produces. -/
def layerC3 : Layer :=
  { name := "VK_LAYER_test", _layer_type := .LAYER_TYPE_EXPLICIT,
    _file_format_version := .mk 1 2 0, _api_version := .mk 1 2 154,
    _implementation_version := "2", _library_path := "test.dll",
    _type := "GLOBAL", _description := "dd", _layer_path := "layer.json" }

/-- Witness for C3: a concrete successful run returning true = IsValid. -/
theorem layer_load_returns_validity_witness : true = layerC3.IsValid :=
  layer_load_returns_validity envC3 id id 1 "layer.json" .LAYER_TYPE_EXPLICIT defaultLayer
    rootC3 true layerC3 1 (by decide) rfl (by decide)

theorem rootDoc_read_ffv (ffv : String) (L : List (String × Json)) :
    ReadStringValue (rootDoc ffv L) "file_format_version" = some ffv := rfl

theorem rootDoc_read_layer (ffv : String) (L : List (String × Json)) :
    ReadObject (rootDoc ffv L) "layer" = some L := rfl

theorem layerObj_read_name (nm ty : String) (lp? : Option String) (av iv ds : String)
    (s? p? : Option Json) :
    ReadStringValue (layerObjFields nm ty lp? av iv ds s? p?) "name" = some nm := rfl

theorem layerObj_read_type (nm ty : String) (lp? : Option String) (av iv ds : String)
    (s? p? : Option Json) :
    ReadStringValue (layerObjFields nm ty lp? av iv ds s? p?) "type" = some ty := rfl

theorem layerObj_jget_library_path (nm ty : String) (lp? : Option String) (av iv ds : String)
    (s? p? : Option Json) :
    jget (layerObjFields nm ty lp? av iv ds s? p?) "library_path" = lp?.map Json.str := by
  cases lp? <;> cases s? <;> cases p? <;> rfl

theorem layerObj_read_api (nm ty : String) (lp? : Option String) (av iv ds : String)
    (s? p? : Option Json) :
    ReadStringValue (layerObjFields nm ty lp? av iv ds s? p?) "api_version" = some av := by
  cases lp? <;> rfl

theorem layerObj_read_impl (nm ty : String) (lp? : Option String) (av iv ds : String)
    (s? p? : Option Json) :
    ReadStringValue (layerObjFields nm ty lp? av iv ds s? p?) "implementation_version" =
      some iv := by
  cases lp? <;> rfl

theorem layerObj_read_desc (nm ty : String) (lp? : Option String) (av iv ds : String)
    (s? p? : Option Json) :
    ReadStringValue (layerObjFields nm ty lp? av iv ds s? p?) "description" = some ds := by
  cases lp? <;> rfl

theorem layerObj_jget_settings (nm ty : String) (lp? : Option String) (av iv ds : String)
    (s? p? : Option Json) :
    jget (layerObjFields nm ty lp? av iv ds s? p?) "settings" = s? := by
  cases lp? <;> cases s? <;> cases p? <;> rfl

theorem layerObj_jget_presets (nm ty : String) (lp? : Option String) (av iv ds : String)
    (s? p? : Option Json) :
    jget (layerObjFields nm ty lp? av iv ds s? p?) "presets" = p? := by
  cases lp? <;> cases s? <;> cases p? <;> rfl

theorem readPrologue_layerObj (env : String → Option FileContent) (p : String)
    (t : LayerType) (l : Layer) (ffv nm ty av iv ds : String) (lp? : Option String)
    (s? p? : Option Json)
    (h1 : p ≠ "")
    (h2 : env p = some (.document (rootDoc ffv (layerObjFields nm ty lp? av iv ds s? p?)))) :
    readPrologue env p t l =
      if ((jget (layerObjFields nm ty lp? av iv ds s? p?) "library_path").isSome ∧
          nm ≠ "VK_LAYER_LUNARG_override") ∨
         ((jget (layerObjFields nm ty lp? av iv ds s? p?) "library_path").isNone ∧
          nm = "VK_LAYER_LUNARG_override") then
        .ok { l with
              _layer_type := t
              _layer_path := p
              _file_format_version := parseVersion ffv
              name := nm
              _type := ty
              _library_path :=
                (match jget (layerObjFields nm ty lp? av iv ds s? p?) "library_path" with
                 | some v => v.toString
                 | none => "")
              _api_version := parseVersion av
              _implementation_version := iv
              _description := ds }
          (layerObjFields nm ty lp? av iv ds s? p?)
      else .early (none, 1) := by
  unfold readPrologue
  rw [if_neg h1, h2]
  dsimp only
  rw [rootDoc_read_ffv, rootDoc_read_layer]
  dsimp only
  rw [layerObj_read_name, layerObj_read_type]
  dsimp only
  rw [layerObj_read_api, layerObj_read_impl, layerObj_read_desc]

/-- C4 counterexample.  A structurally well-formed document whose name IS
the override meta-layer and which DOES carry a library_path trips the
library_path check (src/unnamed/part_000 lines 423-426 demand presence
exactly when the name differs from the override layer): the load aborts
instead of proceeding, so "its presence is also tolerated" is false. -/
def envC4 : String → Option FileContent := fun s =>
  if s = "override.json" then
    some (.document (rootDoc "1.2.0"
      (layerObjFields "VK_LAYER_LUNARG_override" "GLOBAL" (some "override.dll")
        "1.2.154" "1" "dd" none none)))
  else none

/-- C4 counterexample theorem (see envC4): library_path present, name is
the override meta-layer, and the load is rejected (no result). -/
theorem library_path_override_presence_rejected :
    (jget (layerObjFields "VK_LAYER_LUNARG_override" "GLOBAL" (some "override.dll")
        "1.2.154" "1" "dd" none none) "library_path").isSome = true ∧
    (loadFuel envC4 id id 1 "override.json" .LAYER_TYPE_EXPLICIT defaultLayer).1 = none := by
  decide

/-- C4 as amended.  For a structurally well-formed schema document with no
settings or presets fields: the load is rejected (aborts with no result)
exactly when the library_path presence check fails, i.e. absence of
library_path for a non-override name rejects the load; for the override
meta-layer name, absence is tolerated and the load proceeds to return a
descriptor — but presence together with the override name is ALSO
rejected, not tolerated (the check demands presence exactly when the name
differs from the override meta-layer). -/
theorem library_path_check_amended (env : String → Option FileContent)
    (vp rp : String → String) (fuel : Nat) (p : String) (t : LayerType) (l : Layer)
    (ffv nm ty av iv ds : String) (lp? : Option String)
    (h1 : p ≠ "")
    (h2 : env p = some (.document (rootDoc ffv (layerObjFields nm ty lp? av iv ds none none)))) :
    (¬ (((jget (layerObjFields nm ty lp? av iv ds none none) "library_path").isSome ∧
         nm ≠ "VK_LAYER_LUNARG_override") ∨
        ((jget (layerObjFields nm ty lp? av iv ds none none) "library_path").isNone ∧
         nm = "VK_LAYER_LUNARG_override")) →
      (loadFuel env vp rp fuel p t l).1 = none) ∧
    (GetLayerID nm = .LAYER_THIRD_PARTY →
      (((jget (layerObjFields nm ty lp? av iv ds none none) "library_path").isSome ∧
        nm ≠ "VK_LAYER_LUNARG_override") ∨
       ((jget (layerObjFields nm ty lp? av iv ds none none) "library_path").isNone ∧
        nm = "VK_LAYER_LUNARG_override")) →
      ∃ lf, (loadFuel env vp rp fuel p t l).1 = some (lf.IsValid, lf)) := by
  have hbody : ∀ fb, loadBody env vp rp fb p t l =
      match readPrologue env p t l with
      | .early r => r
      | .ok self json_layer_object =>
        (if GetLayerID self.name ≠ LayerID.LAYER_THIRD_PARTY ∧
            ((jget json_layer_object "settings").isNone ∨
             (jget json_layer_object "presets").isNone) ∧
            strStartsWith p ":/resourcefiles/" = false then
          match fb (":/resourcefiles/" ++ GetBuiltinFolder self._api_version ++
                    defaultLayerFile (GetLayerID self.name)) self._layer_type with
          | (some (true, default_layer), cnt) =>
            finishLoad vp rp json_layer_object default_layer self (1 + cnt)
          | (some (false, _), cnt) => (none, 1 + cnt)
          | (none, cnt) => (none, 1 + cnt)
        else finishLoad vp rp json_layer_object defaultLayer self 1) := by
    intro fb
    rfl
  constructor
  · intro hcond
    have hpro := readPrologue_layerObj env p t l ffv nm ty av iv ds lp? none none h1 h2
    rw [if_neg hcond] at hpro
    cases fuel with
    | zero =>
      show (loadBody env vp rp _ p t l).1 = none
      rw [hbody, hpro]
    | succ m =>
      show (loadBody env vp rp _ p t l).1 = none
      rw [hbody, hpro]
  · intro hid hcond
    have hpro := readPrologue_layerObj env p t l ffv nm ty av iv ds lp? none none h1 h2
    rw [if_pos hcond] at hpro
    have hfallback : ¬ (GetLayerID nm ≠ LayerID.LAYER_THIRD_PARTY ∧
        ((jget (layerObjFields nm ty lp? av iv ds none none) "settings").isNone ∨
         (jget (layerObjFields nm ty lp? av iv ds none none) "presets").isNone) ∧
        strStartsWith p ":/resourcefiles/" = false) := by
      rintro ⟨hne, -, -⟩
      exact hne hid
    have hfin : finishLoad vp rp (layerObjFields nm ty lp? av iv ds none none) defaultLayer
        ({ l with
           _layer_type := t
           _layer_path := p
           _file_format_version := parseVersion ffv
           name := nm
           _type := ty
           _library_path :=
             (match jget (layerObjFields nm ty lp? av iv ds none none) "library_path" with
              | some v => v.toString
              | none => "")
           _api_version := parseVersion av
           _implementation_version := iv
           _description := ds }) 1 =
        (some ((({ l with
           _layer_type := t
           _layer_path := p
           _file_format_version := parseVersion ffv
           name := nm
           _type := ty
           _library_path :=
             (match jget (layerObjFields nm ty lp? av iv ds none none) "library_path" with
              | some v => v.toString
              | none => "")
           _api_version := parseVersion av
           _implementation_version := iv
           _description := ds
           settings := ([] : List LayerSetting)
           presets := ([] : List LayerPreset) } : Layer).IsValid),
          { l with
           _layer_type := t
           _layer_path := p
           _file_format_version := parseVersion ffv
           name := nm
           _type := ty
           _library_path :=
             (match jget (layerObjFields nm ty lp? av iv ds none none) "library_path" with
              | some v => v.toString
              | none => "")
           _api_version := parseVersion av
           _implementation_version := iv
           _description := ds
           settings := ([] : List LayerSetting)
           presets := ([] : List LayerPreset) }), 1) := by
      unfold finishLoad loadSettingsPart loadPresetsPart
      rw [layerObj_jget_settings, layerObj_jget_presets]
      rfl
    cases fuel with
    | zero =>
      show ∃ lf, (loadBody env vp rp _ p t l).1 = some (lf.IsValid, lf)
      rw [hbody, hpro]
      dsimp only
      rw [if_neg hfallback, hfin]
      exact ⟨_, rfl⟩
    | succ m =>
      show ∃ lf, (loadBody env vp rp _ p t l).1 = some (lf.IsValid, lf)
      rw [hbody, hpro]
      dsimp only
      rw [if_neg hfallback, hfin]
      exact ⟨_, rfl⟩

/-- A file environment for the C4 witness: one well-formed document without
library_path under a non-override name, one without library_path under the
override meta-layer name. -/
def envC4miss : String → Option FileContent := fun s =>
  if s = "no_lib.json" then
    some (.document (rootDoc "1.2.0"
      (layerObjFields "VK_LAYER_test" "GLOBAL" none "1.2.154" "1" "dd" none none)))
  else if s = "override2.json" then
    some (.document (rootDoc "1.2.0"
      (layerObjFields "VK_LAYER_LUNARG_override" "GLOBAL" none "1.2.154" "1" "dd" none none)))
  else none

/-- Witness for C4's amended theorem: a missing library_path under a
non-override name is rejected; a missing library_path under the override
name proceeds to a returned descriptor. -/
theorem library_path_check_amended_witness :
    (loadFuel envC4miss id id 1 "no_lib.json" .LAYER_TYPE_EXPLICIT defaultLayer).1 = none ∧
    ∃ lf, (loadFuel envC4miss id id 1 "override2.json" .LAYER_TYPE_EXPLICIT defaultLayer).1 =
      some (lf.IsValid, lf) :=
  ⟨(library_path_check_amended envC4miss id id 1 "no_lib.json" .LAYER_TYPE_EXPLICIT defaultLayer
      "1.2.0" "VK_LAYER_test" "GLOBAL" "1.2.154" "1" "dd" none (by decide) rfl).1 (by decide),
   (library_path_check_amended envC4miss id id 1 "override2.json" .LAYER_TYPE_EXPLICIT
      defaultLayer "1.2.0" "VK_LAYER_LUNARG_override" "GLOBAL" "1.2.154" "1" "dd" none
      (by decide) rfl).2 (by decide) (by decide)⟩

theorem wellknown_ne_override (nm : String)
    (h : GetLayerID nm ≠ LayerID.LAYER_THIRD_PARTY) : nm ≠ "VK_LAYER_LUNARG_override" := by
  intro heq
  rw [heq] at h
  exact h (by decide)

theorem loadFuel_settings_present_presets_absent (env : String → Option FileContent)
    (vp rp : String → String) (n : Nat) (p : String) (t : LayerType) (l : Layer)
    (ffv nm ty lp av iv ds : String) (sjson : Json) (b : Bool) (lf : Layer) (c : Nat)
    (hid : GetLayerID nm ≠ LayerID.LAYER_THIRD_PARTY)
    (hp : p ≠ "")
    (hb : strStartsWith p ":/resourcefiles/" = false)
    (henv : env p = some (.document (rootDoc ffv
      (layerObjFields nm ty (some lp) av iv ds (some sjson) none))))
    (hsucc : loadFuel env vp rp (n + 1) p t l = (some (b, lf), c)) :
    ∃ sl ss dl cnt,
      sjson = Json.arr sl ∧
      sl.mapM (parseSetting vp rp) = some ss ∧
      lf.settings = l.settings ++ ss ∧
      loadFuel env vp rp n
        (":/resourcefiles/" ++ GetBuiltinFolder (parseVersion av) ++
         defaultLayerFile (GetLayerID nm)) t defaultLayer = (some (true, dl), cnt) ∧
      lf.presets = dl.presets := by
  have hno := wellknown_ne_override nm hid
  have hlp : jget (layerObjFields nm ty (some lp) av iv ds (some sjson) none) "library_path"
      = some (Json.str lp) :=
    (layerObj_jget_library_path nm ty (some lp) av iv ds (some sjson) none).trans rfl
  have hpro := readPrologue_layerObj env p t l ffv nm ty av iv ds (some lp) (some sjson) none
    hp henv
  rw [if_pos (Or.inl ⟨by rw [hlp]; rfl, hno⟩)] at hpro
  have hbody : loadFuel env vp rp (n + 1) p t l =
      loadBody env vp rp (fun p2 t2 => loadFuel env vp rp n p2 t2 defaultLayer) p t l := rfl
  rw [hbody] at hsucc
  unfold loadBody at hsucc
  rw [hpro] at hsucc
  dsimp only at hsucc
  have hcond2 : GetLayerID nm ≠ LayerID.LAYER_THIRD_PARTY ∧
      ((jget (layerObjFields nm ty (some lp) av iv ds (some sjson) none) "settings").isNone ∨
       (jget (layerObjFields nm ty (some lp) av iv ds (some sjson) none) "presets").isNone) ∧
      strStartsWith p ":/resourcefiles/" = false :=
    ⟨hid, Or.inr (by rw [layerObj_jget_presets]; rfl), hb⟩
  rw [if_pos hcond2] at hsucc
  rcases hfb : loadFuel env vp rp n
      (":/resourcefiles/" ++ GetBuiltinFolder (parseVersion av) ++
       defaultLayerFile (GetLayerID nm)) t defaultLayer with ⟨fr, fcnt⟩
  rw [hfb] at hsucc
  rcases fr with _ | ⟨bb, dl⟩
  · exact absurd hsucc (by simp)
  cases bb with
  | false => exact absurd hsucc (by simp)
  | true =>
    unfold finishLoad loadSettingsPart loadPresetsPart at hsucc
    rw [layerObj_jget_settings, layerObj_jget_presets] at hsucc
    dsimp only at hsucc
    cases sjson with
    | str s => exact absurd hsucc (by simp)
    | num m2 => exact absurd hsucc (by simp)
    | obj fs => exact absurd hsucc (by simp)
    | arr sl =>
      dsimp only at hsucc
      cases hm : sl.mapM (parseSetting vp rp) with
      | none => rw [hm] at hsucc; exact absurd hsucc (by simp)
      | some ss =>
        rw [hm] at hsucc
        dsimp only at hsucc
        rw [Prod.mk.injEq] at hsucc
        obtain ⟨hsome, -⟩ := hsucc
        obtain ⟨-, hlf⟩ := Prod.mk.injEq .. |>.mp (Option.some.inj hsome)
        refine ⟨sl, ss, dl, fcnt, rfl, hm, ?_, rfl, ?_⟩
        · rw [← hlf]
        · rw [← hlf]

theorem loadFuel_presets_present_settings_absent (env : String → Option FileContent)
    (vp rp : String → String) (n : Nat) (p : String) (t : LayerType) (l : Layer)
    (ffv nm ty lp av iv ds : String) (pjson : Json) (b : Bool) (lf : Layer) (c : Nat)
    (hid : GetLayerID nm ≠ LayerID.LAYER_THIRD_PARTY)
    (hp : p ≠ "")
    (hb : strStartsWith p ":/resourcefiles/" = false)
    (henv : env p = some (.document (rootDoc ffv
      (layerObjFields nm ty (some lp) av iv ds none (some pjson)))))
    (hsucc : loadFuel env vp rp (n + 1) p t l = (some (b, lf), c)) :
    ∃ pl ps dl cnt,
      pjson = Json.arr pl ∧
      pl.mapM parsePreset = some ps ∧
      lf.presets = l.presets ++ ps ∧
      loadFuel env vp rp n
        (":/resourcefiles/" ++ GetBuiltinFolder (parseVersion av) ++
         defaultLayerFile (GetLayerID nm)) t defaultLayer = (some (true, dl), cnt) ∧
      lf.settings = dl.settings := by
  have hno := wellknown_ne_override nm hid
  have hlp : jget (layerObjFields nm ty (some lp) av iv ds none (some pjson)) "library_path"
      = some (Json.str lp) :=
    (layerObj_jget_library_path nm ty (some lp) av iv ds none (some pjson)).trans rfl
  have hpro := readPrologue_layerObj env p t l ffv nm ty av iv ds (some lp) none (some pjson)
    hp henv
  rw [if_pos (Or.inl ⟨by rw [hlp]; rfl, hno⟩)] at hpro
  have hbody : loadFuel env vp rp (n + 1) p t l =
      loadBody env vp rp (fun p2 t2 => loadFuel env vp rp n p2 t2 defaultLayer) p t l := rfl
  rw [hbody] at hsucc
  unfold loadBody at hsucc
  rw [hpro] at hsucc
  dsimp only at hsucc
  have hcond2 : GetLayerID nm ≠ LayerID.LAYER_THIRD_PARTY ∧
      ((jget (layerObjFields nm ty (some lp) av iv ds none (some pjson)) "settings").isNone ∨
       (jget (layerObjFields nm ty (some lp) av iv ds none (some pjson)) "presets").isNone) ∧
      strStartsWith p ":/resourcefiles/" = false :=
    ⟨hid, Or.inl (by rw [layerObj_jget_settings]; rfl), hb⟩
  rw [if_pos hcond2] at hsucc
  rcases hfb : loadFuel env vp rp n
      (":/resourcefiles/" ++ GetBuiltinFolder (parseVersion av) ++
       defaultLayerFile (GetLayerID nm)) t defaultLayer with ⟨fr, fcnt⟩
  rw [hfb] at hsucc
  rcases fr with _ | ⟨bb, dl⟩
  · exact absurd hsucc (by simp)
  cases bb with
  | false => exact absurd hsucc (by simp)
  | true =>
    unfold finishLoad loadSettingsPart loadPresetsPart at hsucc
    rw [layerObj_jget_settings, layerObj_jget_presets] at hsucc
    dsimp only at hsucc
    cases pjson with
    | str s => exact absurd hsucc (by simp)
    | num m2 => exact absurd hsucc (by simp)
    | obj fs => exact absurd hsucc (by simp)
    | arr pl =>
      dsimp only at hsucc
      cases hm : pl.mapM parsePreset with
      | none => rw [hm] at hsucc; exact absurd hsucc (by simp)
      | some ps =>
        rw [hm] at hsucc
        dsimp only at hsucc
        rw [Prod.mk.injEq] at hsucc
        obtain ⟨hsome, -⟩ := hsucc
        obtain ⟨-, hlf⟩ := Prod.mk.injEq .. |>.mp (Option.some.inj hsome)
        refine ⟨pl, ps, dl, fcnt, rfl, hm, ?_, rfl, ?_⟩
        · rw [← hlf]
        · rw [← hlf]

/-- C1 counterexample document support: a stale setting already stored on
the descriptor before Load runs. -/
def oldSettingEntry : LayerSetting :=
  { key := "stale", label := "Stale", description := "sd",
    type := .SETTING_STRING, default_value := "s" }

/-- C1 as amended.  Fallback resolution is independent per axis, but the
settings loop push_backs onto the descriptor's existing settings vector
(src/unnamed/part_000 line 500) and the presets loop push_backs onto the
existing presets vector (line 534).  For every schema manifest of a
well-known layer name loaded from a non-bundled path: when the settings
field is present but presets is absent, any returned descriptor carries
its pre-existing settings followed by exactly the settings parsed from the
document (so, on a default-constructed descriptor, exactly the parsed
settings), while its presets equal those of the bundled reference manifest
loaded by the (successful, asserted) recursive fallback; and symmetrically,
when presets is present but settings is absent, the presets are the
pre-existing ones followed by those parsed from the document while the
settings are adopted verbatim from the reference manifest. -/
theorem layer_load_fallback_per_axis_amended
    (env1 env2 : String → Option FileContent) (vp rp : String → String) (n : Nat)
    (p1 p2 : String) (t : LayerType) (l1 l2 : Layer)
    (ffv1 nm1 ty1 lp1 av1 iv1 ds1 ffv2 nm2 ty2 lp2 av2 iv2 ds2 : String)
    (sjson pjson : Json) (b1 b2 : Bool) (lf1 lf2 : Layer) (c1 c2 : Nat) :
    (GetLayerID nm1 ≠ LayerID.LAYER_THIRD_PARTY → p1 ≠ "" →
     strStartsWith p1 ":/resourcefiles/" = false →
     env1 p1 = some (.document (rootDoc ffv1
       (layerObjFields nm1 ty1 (some lp1) av1 iv1 ds1 (some sjson) none))) →
     loadFuel env1 vp rp (n + 1) p1 t l1 = (some (b1, lf1), c1) →
     ∃ sl ss dl cnt,
       sjson = Json.arr sl ∧
       sl.mapM (parseSetting vp rp) = some ss ∧
       lf1.settings = l1.settings ++ ss ∧
       loadFuel env1 vp rp n
         (":/resourcefiles/" ++ GetBuiltinFolder (parseVersion av1) ++
          defaultLayerFile (GetLayerID nm1)) t defaultLayer = (some (true, dl), cnt) ∧
       lf1.presets = dl.presets) ∧
    (GetLayerID nm2 ≠ LayerID.LAYER_THIRD_PARTY → p2 ≠ "" →
     strStartsWith p2 ":/resourcefiles/" = false →
     env2 p2 = some (.document (rootDoc ffv2
       (layerObjFields nm2 ty2 (some lp2) av2 iv2 ds2 none (some pjson)))) →
     loadFuel env2 vp rp (n + 1) p2 t l2 = (some (b2, lf2), c2) →
     ∃ pl ps dl cnt,
       pjson = Json.arr pl ∧
       pl.mapM parsePreset = some ps ∧
       lf2.presets = l2.presets ++ ps ∧
       loadFuel env2 vp rp n
         (":/resourcefiles/" ++ GetBuiltinFolder (parseVersion av2) ++
          defaultLayerFile (GetLayerID nm2)) t defaultLayer = (some (true, dl), cnt) ∧
       lf2.settings = dl.settings) :=
  ⟨fun hid hp hb henv hsucc =>
    loadFuel_settings_present_presets_absent env1 vp rp n p1 t l1
      ffv1 nm1 ty1 lp1 av1 iv1 ds1 sjson b1 lf1 c1 hid hp hb henv hsucc,
   fun hid hp hb henv hsucc =>
    loadFuel_presets_present_settings_absent env2 vp rp n p2 t l2
      ffv2 nm2 ty2 lp2 av2 iv2 ds2 pjson b2 lf2 c2 hid hp hb henv hsucc⟩

/-- A string setting for the C1 witness documents. -/
def settingJson1 : Json := .obj [("key", .str "log"), ("label", .str "Log"),
  ("description", .str "dd"), ("type", .str "string"), ("default", .str "x")]

/-- A preset for the C1 witness documents. -/
def presetJson1 : Json := .obj [("preset-index", .num 1), ("label", .str "P"),
  ("description", .str "pd"), ("platforms", .arr [.str "WINDOWS"]),
  ("status", .str "STABLE"), ("editor_state", .str "es"),
  ("settings", .arr [.obj [("key", .str "log"), ("value", .str "y")]])]

/-- The setting carried only by the bundled reference manifest. -/
def refSettingJson : Json := .obj [("key", .str "ref_key"), ("label", .str "RL"),
  ("description", .str "rd"), ("type", .str "string"), ("default", .str "rv")]

/-- Axis-1 outer manifest: settings present, presets absent. -/
def outerDoc1 : List (String × Json) :=
  rootDoc "1.2.0" (layerObjFields "VK_LAYER_LUNARG_monitor" "GLOBAL" (some "monitor.dll")
    "1.2.154" "1" "d" (some (.arr [settingJson1])) none)

/-- Axis-2 outer manifest: settings absent, presets present. -/
def outerDoc2 : List (String × Json) :=
  rootDoc "1.2.0" (layerObjFields "VK_LAYER_LUNARG_monitor" "GLOBAL" (some "monitor.dll")
    "1.2.154" "1" "d" none (some (.arr [presetJson1])))

/-- The bundled reference manifest for the monitor layer, self-sufficient
with both settings and presets. -/
def refDocBoth : List (String × Json) :=
  rootDoc "1.2.0" (layerObjFields "VK_LAYER_LUNARG_monitor" "GLOBAL" (some "m.dll")
    "1.2.154" "3" "dm" (some (.arr [refSettingJson])) (some (.arr [presetJson1])))

/-- A file environment holding both outer manifests and the bundled
reference manifest at its resolved resource path. -/
def envAx : String → Option FileContent := fun s =>
  if s = "outer1.json" then some (.document outerDoc1)
  else if s = "outer2.json" then some (.document outerDoc2)
  else if s = ":/resourcefiles/layers_1_2_154/VkLayer_monitor.json" then
    some (.document refDocBoth)
  else none

/-- The descriptor the axis-1 witness run returns: settings from the
document, presets from the reference manifest. -/
def axisResult1 : Layer :=
  { name := "VK_LAYER_LUNARG_monitor", _layer_type := .LAYER_TYPE_EXPLICIT,
    _file_format_version := .mk 1 2 0, _api_version := .mk 1 2 154,
    _implementation_version := "1", _library_path := "monitor.dll", _type := "GLOBAL",
    _description := "d", _layer_path := "outer1.json",
    settings := [{ key := "log", label := "Log", description := "dd",
                   type := .SETTING_STRING, default_value := "x" }],
    presets := [{ preset_index := 1, label := "P", description := "pd", platform_flags := 1,
                  status_type := .STATUS_STABLE, editor_state := "es",
                  settings := [{ key := "log", value := "y" }] }] }

/-- The descriptor the axis-2 witness run returns: settings from the
reference manifest, presets from the document. -/
def axisResult2 : Layer :=
  { name := "VK_LAYER_LUNARG_monitor", _layer_type := .LAYER_TYPE_EXPLICIT,
    _file_format_version := .mk 1 2 0, _api_version := .mk 1 2 154,
    _implementation_version := "1", _library_path := "monitor.dll", _type := "GLOBAL",
    _description := "d", _layer_path := "outer2.json",
    settings := [{ key := "ref_key", label := "RL", description := "rd",
                   type := .SETTING_STRING, default_value := "rv" }],
    presets := [{ preset_index := 1, label := "P", description := "pd", platform_flags := 1,
                  status_type := .STATUS_STABLE, editor_state := "es",
                  settings := [{ key := "log", value := "y" }] }] }

/-- The descriptor the axis-1 counterexample run returns when Load starts
from a descriptor already holding a stale setting: the stale entry stays in
front of the parsed one. -/
def dirtyResult1 : Layer :=
  { axisResult1 with
    settings := [oldSettingEntry,
      { key := "log", label := "Log", description := "dd",
        type := .SETTING_STRING, default_value := "x" }] }

/-- C1 counterexample theorem.  Loading the axis-1 manifest (settings
present, presets absent, well-known name, non-bundled path) into a
descriptor that already holds a stale setting returns a descriptor whose
settings are the stale entry followed by the parsed one — the settings
loop push_backs onto the member vector (src/unnamed/part_000 line 500) —
so the returned settings do NOT equal those parsed from the document
verbatim, refuting the claim as stated at this concrete input. -/
theorem fallback_settings_not_verbatim_on_dirty_layer :
    (loadFuel envAx id id 1 "outer1.json" .LAYER_TYPE_EXPLICIT
      { defaultLayer with settings := [oldSettingEntry] }).1 = some (true, dirtyResult1) ∧
    dirtyResult1.settings ≠
      [{ key := "log", label := "Log", description := "dd",
         type := .SETTING_STRING, default_value := "x" }] ∧
    dirtyResult1.settings =
      oldSettingEntry ::
        [{ key := "log", label := "Log", description := "dd",
           type := .SETTING_STRING, default_value := "x" }] := by
  decide

/-- Witness for C1's amended theorem on both axes, at concrete
monitor-layer manifests loaded into a default-constructed descriptor. -/
theorem layer_load_fallback_per_axis_amended_witness :
    (∃ sl ss dl cnt,
      (Json.arr [settingJson1]) = Json.arr sl ∧
      sl.mapM (parseSetting id id) = some ss ∧
      axisResult1.settings = defaultLayer.settings ++ ss ∧
      loadFuel envAx id id 0
        (":/resourcefiles/" ++ GetBuiltinFolder (parseVersion "1.2.154") ++
         defaultLayerFile (GetLayerID "VK_LAYER_LUNARG_monitor")) .LAYER_TYPE_EXPLICIT
        defaultLayer = (some (true, dl), cnt) ∧
      axisResult1.presets = dl.presets) ∧
    (∃ pl ps dl cnt,
      (Json.arr [presetJson1]) = Json.arr pl ∧
      pl.mapM parsePreset = some ps ∧
      axisResult2.presets = defaultLayer.presets ++ ps ∧
      loadFuel envAx id id 0
        (":/resourcefiles/" ++ GetBuiltinFolder (parseVersion "1.2.154") ++
         defaultLayerFile (GetLayerID "VK_LAYER_LUNARG_monitor")) .LAYER_TYPE_EXPLICIT
        defaultLayer = (some (true, dl), cnt) ∧
      axisResult2.settings = dl.settings) := by
  have happ := layer_load_fallback_per_axis_amended envAx envAx id id 0 "outer1.json"
    "outer2.json" .LAYER_TYPE_EXPLICIT defaultLayer defaultLayer
    "1.2.0" "VK_LAYER_LUNARG_monitor" "GLOBAL" "monitor.dll" "1.2.154" "1" "d"
    "1.2.0" "VK_LAYER_LUNARG_monitor" "GLOBAL" "monitor.dll" "1.2.154" "1" "d"
    (.arr [settingJson1]) (.arr [presetJson1]) true true axisResult1 axisResult2 2 2
  exact ⟨happ.1 (by decide) (by decide) (by decide) rfl (by decide),
         happ.2 (by decide) (by decide) (by decide) rfl (by decide)⟩
